import Mathlib

/-!
Verification of the mess-cut (meal-skip) eligibility and notification
workflow of the MESSY repository, a shallow embedding of
`src/project/services/NotificationService.ts` (classes
`NotificationService` and `MessCutService`) together with the rows of the
`deliveries`, `subscriptions`, `messes` and `notifications` tables they
touch (`src/project/types/database.ts`).

Modelling conventions:
* An instant is an integer count of milliseconds (luxon `DateTime`
  arithmetic is millisecond exact).  A calendar date is represented by the
  instant of its local midnight, so `DateTime.fromISO (date ++ "T" ++ t)`
  becomes `date + timeOfDayMs t`.
* The data store is a record of lists of rows.  Supabase semantics used by
  the source: an `update ... eq ... select ... single` call applies the
  update to every row matching the filters and then errors unless exactly
  one row was returned; a bare `update ... eq` call succeeds even when no
  row matches.  Stateful methods take the store and return the new store;
  fallible ones return `Except`.
* `DateTime.now()` is modelled by an explicit `now` argument threaded to
  the functions that call it in their bodies.
* External failures of the notification insert and of the push dispatch
  are modelled by two boolean failure-injection parameters.
-/

namespace Messy

/-- Row of the `deliveries` table (only the columns the flow touches). -/
structure Delivery where
  id : String
  subscription_id : String
  date : Int
  meal_type : String
  status : String
  skip_reason : Option String
  skip_requested_at : Option Int
  delivery_notes : Option String
deriving DecidableEq, Repr

/-- Row of the `subscriptions` table (only the columns read by the join). -/
structure Subscription where
  id : String
  mess_id : String
deriving DecidableEq, Repr

/-- Row of the `messes` table (only the columns read by the join). -/
structure Mess where
  id : String
  owner_id : String
  name : String
deriving DecidableEq, Repr

/-- Structured payload attached to a mess-cut notification
(the object literal at lines 143-149 of the source). -/
structure MessCutPayload where
  type : String
  deliveryId : String
  date : Int
  mealType : String
  reason : Option String
deriving DecidableEq, Repr

/-- Row of the `notifications` table as inserted by
`NotificationService.sendNotification`. -/
structure NotificationRow where
  user_id : String
  title : String
  message : String
  type : String
  data : Option MessCutPayload
  is_read : Bool
deriving DecidableEq, Repr

/-- The data store: the four tables the workflow reads or writes. -/
structure DB where
  deliveries : List Delivery
  subscriptions : List Subscription
  messes : List Mess
  notifications : List NotificationRow
deriving DecidableEq, Repr

/-- Numeric value of a decimal digit character. -/
def digitVal (c : Char) : Nat := c.toNat - 48

/-- Milliseconds past midnight denoted by an `HH:MM` string
(the wall-clock part handed to `DateTime.fromISO`). -/
def timeOfDayMs (t : String) : Int :=
  match t.toList with
  | [h1, h2, _, m1, m2] =>
      (((digitVal h1 * 10 + digitVal h2) * 60 + (digitVal m1 * 10 + digitVal m2)) * 60000 : Nat)
  | _ => 0

/-- `MessCutService.getMealTime` (source lines 182-193): meal slot to
cutoff time-of-day string. -/
def getMealTime (mealType : String) : String :=
  match mealType with
  | "breakfast" => "08:00"
  | "lunch" => "13:00"
  | "dinner" => "20:00"
  | _ => "12:00"

/-- The instant built by
`DateTime.fromISO (date ++ "T" ++ getMealTime mealType)`:
midnight of the calendar date plus the cutoff time of day. -/
def deliveryDateTime (date : Int) (mealType : String) : Int :=
  date + timeOfDayMs (getMealTime mealType)

/-- Twelve hours in milliseconds: the advance-notice window. -/
def twelveHoursMs : Int := 12 * 60 * 60 * 1000

/-- `MessCutService.canRequestMessCut` (source lines 175-180).
`hoursDifference >= 12` on luxon millisecond differences is exactly
`deliveryDateTime - now >= twelveHoursMs`.  The source reads
`DateTime.now()` itself; the clock reading is the `now` argument here. -/
def canRequestMessCut (date : Int) (mealType : String) (now : Int) : Bool :=
  decide (twelveHoursMs ≤ deliveryDateTime date mealType - now)

/-- Parameter list of the source declaration
`static canRequestMessCut(date: string, mealType: string): boolean`
(source line 175): the function declares exactly two parameters and no
current-instant parameter; `DateTime.now()` is read inside the body. -/
def canRequestMessCutParams : List String := ["date", "mealType"]

/-- The error outcomes of the workflow, as the spec names them.  In the
source they are, in order: the thrown advance-notice `Error`, the
`single()` error of the update that returned no row, and the crash or
error of the post-update join to subscription and mess. -/
inductive MessCutError where
  | ineligibleSkipWindow
  | deliveryNotFound
  | integrityError
deriving DecidableEq, Repr

/-- `NotificationService.sendNotification` (source lines 52-76).  Inserts
a notification row with `type` taken from `data.type` when that is truthy
and `"system"` otherwise, then fires the push dispatch.  The whole body is
wrapped in try/catch, so the function never fails: an injected insert
failure (`insertOk = false`) leaves the store unchanged, and a push
failure (`pushOk = false`) changes nothing either way; neither error
escapes. -/
def sendNotification (db : DB) (insertOk pushOk : Bool)
    (userId title message : String) (data : Option MessCutPayload) : DB :=
  if insertOk then
    { db with notifications := db.notifications ++
        [{ user_id := userId, title := title, message := message,
           type := match data with
                   | some p => if p.type = "" then "system" else p.type
                   | none => "system",
           data := data, is_read := false }] }
  else db

/-- `status`, `skip_reason` and `skip_requested_at` assignment of the
`deliveries` update in `requestMessCut` (source lines 122-126). -/
def applySkip (now : Int) (reason : Option String) (d : Delivery) : Delivery :=
  { d with status := "skipped", skip_reason := reason, skip_requested_at := some now }

/-- The three `eq` filters of the `deliveries` update
(source lines 127-129). -/
def matchesKey (subscriptionId : String) (date : Int) (mealType : String)
    (d : Delivery) : Bool :=
  d.subscription_id == subscriptionId && d.date == date && d.meal_type == mealType

/-- `MessCutService.requestMessCut` (source lines 108-157).
Guard: throws when `hoursDifference < 12`.  Update: applies the skip to
every row matching the three filters; `single()` then errors unless
exactly one row was returned (zero matching rows leave the table as it
was).  Join: the selected row is read together with its subscription and
mess to obtain the owner; a missing subscription or mess row fails the
call after the update, which is not rolled back.  Finally the notification
is emitted and the updated row returned. -/
def requestMessCut (db : DB) (now : Int) (insertOk pushOk : Bool)
    (subscriptionId : String) (date : Int) (mealType : String)
    (reason : Option String) : Except MessCutError Delivery × DB :=
  if deliveryDateTime date mealType - now < twelveHoursMs then
    (Except.error MessCutError.ineligibleSkipWindow, db)
  else
    let updated := db.deliveries.map
      (fun d => if matchesKey subscriptionId date mealType d then applySkip now reason d else d)
    let db1 : DB := { db with deliveries := updated }
    match db.deliveries.filter (matchesKey subscriptionId date mealType) with
    | [d0] =>
      let delivery := applySkip now reason d0
      match db.subscriptions.find? (fun s => s.id == delivery.subscription_id) with
      | none => (Except.error MessCutError.integrityError, db1)
      | some sub =>
        match db.messes.find? (fun m => m.id == sub.mess_id) with
        | none => (Except.error MessCutError.integrityError, db1)
        | some mess =>
          let db2 := sendNotification db1 insertOk pushOk mess.owner_id
            "Mess Cut Request"
            ("A customer has requested to skip " ++ mealType ++ " on " ++
              toString date ++ " for " ++ mess.name)
            (some { type := "mess_cut", deliveryId := delivery.id,
                    date := date, mealType := mealType, reason := reason })
          (Except.ok delivery, db2)
    | _ => (Except.error MessCutError.deliveryNotFound, db1)

/-- `MessCutService.acknowledgeMessCut` (source lines 159-173).  A bare
`update ... eq id` with no `select`/`single`: supabase reports no error
when zero rows match, so the call succeeds whether or not the id exists,
writing the note on every matching row. -/
def acknowledgeMessCut (db : DB) (deliveryId : String) : Except MessCutError DB :=
  let noted := db.deliveries.map
    (fun d => if d.id == deliveryId then { d with delivery_notes := some "Acknowledged by mess owner" } else d)
  Except.ok { db with deliveries := noted }

/-! ### Fixtures for witnesses and counterexamples -/

/-- A scheduled lunch delivery for the fixture subscription. -/
def d1 : Delivery :=
  { id := "del-1", subscription_id := "sub-1", date := 0, meal_type := "lunch",
    status := "scheduled", skip_reason := none, skip_requested_at := none,
    delivery_notes := none }

/-- The fixture subscription, pointing at the fixture mess. -/
def sub1 : Subscription := { id := "sub-1", mess_id := "mess-1" }

/-- The fixture mess with its owning user. -/
def mess1 : Mess := { id := "mess-1", owner_id := "owner-1", name := "Mess One" }

/-- A consistent store: one delivery, its subscription, its mess. -/
def db0 : DB :=
  { deliveries := [d1], subscriptions := [sub1], messes := [mess1], notifications := [] }

/-- A store whose delivery has no subscription row: the join fails. -/
def dbNoSub : DB :=
  { deliveries := [d1], subscriptions := [], messes := [mess1], notifications := [] }

/-! ### Helper lemmas -/

/-- Updating the rows selected by `p` and then filtering by `p` gives the
updated selection, provided the update keeps `p`. -/
theorem filter_map_update {α : Type} (p : α → Bool) (f : α → α)
    (hf : ∀ a, p (f a) = p a) (l : List α) :
    (l.map (fun a => if p a then f a else a)).filter p = (l.filter p).map f := by
  induction l with
  | nil => rfl
  | cons a t ih =>
    by_cases h : p a = true
    · simp [List.filter_cons, h, hf, ih]
    · simp [List.filter_cons, List.map_cons, Bool.eq_false_iff.mpr h, ih]

/-- An update targeting rows selected by `p` is the identity when no row
is selected. -/
theorem map_update_of_filter_nil {α : Type} (p : α → Bool) (f : α → α)
    (l : List α) (h : l.filter p = []) :
    l.map (fun a => if p a then f a else a) = l := by
  induction l with
  | nil => rfl
  | cons a t ih =>
    rw [List.filter_cons] at h
    by_cases hpa : p a = true
    · rw [if_pos hpa] at h
      exact absurd h (List.cons_ne_nil a _)
    · rw [if_neg hpa] at h
      simp [Bool.eq_false_iff.mpr hpa, ih h]

/-- The skip update does not touch the three key columns. -/
theorem matchesKey_applySkip (s : String) (dt : Int) (m : String)
    (now : Int) (r : Option String) (d : Delivery) :
    matchesKey s dt m (applySkip now r d) = matchesKey s dt m d := by
  simp [matchesKey, applySkip]

/-- The notification emitter writes only the `notifications` table. -/
theorem sendNotification_deliveries (db : DB) (insertOk pushOk : Bool)
    (u t m : String) (dta : Option MessCutPayload) :
    (sendNotification db insertOk pushOk u t m dta).deliveries = db.deliveries := by
  unfold sendNotification
  by_cases h : insertOk = true <;> simp [h]

/-- The skip request reports the advance-notice error exactly on the
guard condition: the scheduled instant is less than twelve hours away. -/
theorem requestMessCut_fst_ineligible_iff (db : DB) (now : Int)
    (insertOk pushOk : Bool) (sid : String) (date : Int) (mt : String)
    (r : Option String) :
    (requestMessCut db now insertOk pushOk sid date mt r).1 =
      Except.error MessCutError.ineligibleSkipWindow ↔
      deliveryDateTime date mt - now < twelveHoursMs := by
  unfold requestMessCut
  by_cases h : deliveryDateTime date mt - now < twelveHoursMs
  · simp [h]
  · simp only [if_neg h]
    constructor
    · intro hc
      exfalso
      revert hc
      split
      · split
        · simp
        · split <;> simp
      · simp
    · intro hlt; exact absurd hlt h

/-- Deriving the strict guard inequality from a true eligibility check. -/
theorem not_lt_of_canRequestMessCut (date : Int) (mt : String) (now : Int)
    (h : canRequestMessCut date mt now = true) :
    ¬ deliveryDateTime date mt - now < twelveHoursMs := by
  simp only [canRequestMessCut, decide_eq_true_eq] at h
  exact Int.not_lt.mpr h

/-! ### Claims -/

/-- C1: for every calendar date, meal slot and current instant, the
eligibility check, and the identical guard inside `requestMessCut`, accept
exactly when the scheduled instant minus the current instant is at least
twelve hours, and reject any smaller difference, negative ones included;
at a difference of exactly twelve hours the check returns true, and at
eleven hours fifty-nine minutes fifty-nine seconds it returns false. -/
theorem canRequestMessCut_twelve_hour_window :
    (∀ (date : Int) (mealType : String) (now : Int),
      canRequestMessCut date mealType now = true ↔
        twelveHoursMs ≤ deliveryDateTime date mealType - now) ∧
    (∀ (db : DB) (now : Int) (insertOk pushOk : Bool) (sid : String)
        (date : Int) (mealType : String) (r : Option String),
      (requestMessCut db now insertOk pushOk sid date mealType r).1 =
          Except.error MessCutError.ineligibleSkipWindow ↔
        deliveryDateTime date mealType - now < twelveHoursMs) ∧
    (∀ (date : Int) (mealType : String) (now : Int),
      deliveryDateTime date mealType - now = twelveHoursMs →
        canRequestMessCut date mealType now = true) ∧
    (∀ (date : Int) (mealType : String) (now : Int),
      deliveryDateTime date mealType - now = twelveHoursMs - 1000 →
        canRequestMessCut date mealType now = false) := by
  refine ⟨?_, ?_, ?_, ?_⟩
  · intro date mealType now
    simp [canRequestMessCut]
  · intro db now insertOk pushOk sid date mealType r
    exact requestMessCut_fst_ineligible_iff db now insertOk pushOk sid date mealType r
  · intro date mealType now h
    simp [canRequestMessCut, h]
  · intro date mealType now h
    simp [canRequestMessCut, h]

/-- Witness for C1: a lunch exactly twelve hours ahead is eligible; one
second inside the window it is not. -/
theorem canRequestMessCut_twelve_hour_window_witness :
    canRequestMessCut 0 "lunch" 3600000 = true ∧
    canRequestMessCut 0 "lunch" 3601000 = false := by
  refine ⟨canRequestMessCut_twelve_hour_window.2.2.1 0 "lunch" 3600000 (by decide),
    canRequestMessCut_twelve_hour_window.2.2.2 0 "lunch" 3601000 (by decide)⟩

/-- C4: the meal-slot-to-cutoff mapping used through `deliveryDateTime`
by both the eligibility check and the `requestMessCut` guard sends
breakfast to 08:00, lunch to 13:00, dinner to 20:00 and every other slot
value to the 12:00 fallback. -/
theorem getMealTime_mapping :
    getMealTime "breakfast" = "08:00" ∧
    getMealTime "lunch" = "13:00" ∧
    getMealTime "dinner" = "20:00" ∧
    (∀ m : String, m ≠ "breakfast" → m ≠ "lunch" → m ≠ "dinner" →
      getMealTime m = "12:00") ∧
    (∀ (date : Int) (m : String) (now : Int),
      canRequestMessCut date m now =
        decide (twelveHoursMs ≤ date + timeOfDayMs (getMealTime m) - now)) := by
  refine ⟨rfl, rfl, rfl, ?_, fun _ _ _ => rfl⟩
  intro m h1 h2 h3
  unfold getMealTime
  split <;> simp_all

/-- Witness for C4: an unrecognized slot value falls back to 12:00. -/
theorem getMealTime_mapping_witness : getMealTime "supper" = "12:00" :=
  getMealTime_mapping.2.2.2.1 "supper" (by decide) (by decide) (by decide)

/-- C6 counterexample: the source declaration of `canRequestMessCut` has
exactly the two parameters `date` and `mealType`; there is no optional
current-instant parameter to inject a clock for deterministic tests. -/
theorem canRequestMessCut_no_now_param :
    canRequestMessCutParams.length = 2 ∧ "now" ∉ canRequestMessCutParams := by
  decide

/-- C6 amended: the eligibility check declares only the date and meal slot
parameters and always reads the system clock itself; given the clock
reading it is a deterministic, side-effect-free function of its inputs,
callable standalone by the UI layer. -/
theorem canRequestMessCut_clock_and_purity :
    canRequestMessCutParams = ["date", "mealType"] ∧
    (∀ (date : Int) (mealType : String) (now : Int),
      canRequestMessCut date mealType now =
        decide (twelveHoursMs ≤ deliveryDateTime date mealType - now)) :=
  ⟨rfl, fun _ _ _ => rfl⟩

/-- C10: at a shared current instant, the inline guard at the start of
`requestMessCut` lets the request proceed (does not produce the
advance-notice error) exactly when the standalone `canRequestMessCut`
returns true for the same date and meal slot. -/
theorem requestMessCut_guard_agrees_canRequestMessCut
    (db : DB) (now : Int) (insertOk pushOk : Bool) (sid : String)
    (date : Int) (mt : String) (r : Option String) :
    ((requestMessCut db now insertOk pushOk sid date mt r).1 ≠
        Except.error MessCutError.ineligibleSkipWindow) ↔
      canRequestMessCut date mt now = true := by
  rw [Ne, requestMessCut_fst_ineligible_iff]
  simp [canRequestMessCut, Int.not_lt]

/-- C3: an ineligible date and meal slot make `requestMessCut` fail with
the advance-notice error and perform zero writes: the store it returns is
the one it was given, so no delivery is mutated and no notification is
inserted. -/
theorem requestMessCut_ineligible_no_writes
    (db : DB) (now : Int) (insertOk pushOk : Bool) (sid : String)
    (date : Int) (mt : String) (r : Option String)
    (h : canRequestMessCut date mt now = false) :
    requestMessCut db now insertOk pushOk sid date mt r =
      (Except.error MessCutError.ineligibleSkipWindow, db) := by
  have hlt : deliveryDateTime date mt - now < twelveHoursMs := by
    simp only [canRequestMessCut, decide_eq_false_iff_not] at h
    exact Int.not_le.mp h
  unfold requestMessCut
  rw [if_pos hlt]

/-- Witness for C3: dinner today at 20:00 requested at 09:01, ten hours
fifty-nine minutes ahead, fails and leaves the store untouched. -/
theorem requestMessCut_ineligible_no_writes_witness :
    requestMessCut db0 32460000 true true "sub-1" 0 "dinner" none =
      (Except.error MessCutError.ineligibleSkipWindow, db0) :=
  requestMessCut_ineligible_no_writes db0 32460000 true true "sub-1" 0 "dinner" none
    (by decide)

/-- C8: when no delivery row matches the subscription, date and meal slot,
an otherwise eligible `requestMessCut` fails with the not-found error and
returns the store unchanged, so no notification is inserted. -/
theorem requestMessCut_no_matching_delivery
    (db : DB) (now : Int) (insertOk pushOk : Bool) (sid : String)
    (date : Int) (mt : String) (r : Option String)
    (helig : canRequestMessCut date mt now = true)
    (hnone : db.deliveries.filter (matchesKey sid date mt) = []) :
    requestMessCut db now insertOk pushOk sid date mt r =
      (Except.error MessCutError.deliveryNotFound, db) := by
  have hge := not_lt_of_canRequestMessCut date mt now helig
  unfold requestMessCut
  rw [if_neg hge]
  simp only [hnone]
  rw [map_update_of_filter_nil _ _ _ hnone]

/-- Witness for C8: an unknown subscription id with an eligible lunch
slot yields the not-found error and the untouched store. -/
theorem requestMessCut_no_matching_delivery_witness :
    requestMessCut db0 0 true true "sub-2" 0 "lunch" none =
      (Except.error MessCutError.deliveryNotFound, db0) :=
  requestMessCut_no_matching_delivery db0 0 true true "sub-2" 0 "lunch" none
    (by decide) (by decide)

/-- C7: when the post-update join fails because the subscription row is
missing, `requestMessCut` fails with the integrity error while the
delivery row keeps its freshly written skipped state (the update is not
rolled back) and no notification is inserted. -/
theorem requestMessCut_join_failure_keeps_skip
    (db : DB) (now : Int) (insertOk pushOk : Bool) (sid : String)
    (date : Int) (mt : String) (r : Option String) (d0 : Delivery)
    (helig : canRequestMessCut date mt now = true)
    (hrow : db.deliveries.filter (matchesKey sid date mt) = [d0])
    (hsub : db.subscriptions.find? (fun s => s.id == d0.subscription_id) = none) :
    (requestMessCut db now insertOk pushOk sid date mt r).1 =
        Except.error MessCutError.integrityError ∧
      ((requestMessCut db now insertOk pushOk sid date mt r).2).deliveries.filter
          (matchesKey sid date mt) = [applySkip now r d0] ∧
      ((requestMessCut db now insertOk pushOk sid date mt r).2).notifications =
        db.notifications := by
  have hge := not_lt_of_canRequestMessCut date mt now helig
  have hsub' : db.subscriptions.find?
      (fun s => s.id == (applySkip now r d0).subscription_id) = none := by
    simpa [applySkip] using hsub
  unfold requestMessCut
  rw [if_neg hge]
  simp only [hrow, hsub']
  refine ⟨by trivial, ?_, by trivial⟩
  rw [filter_map_update (matchesKey sid date mt) (applySkip now r)
      (matchesKey_applySkip sid date mt now r) db.deliveries, hrow]
  rfl

/-- Witness for C7: in a store whose delivery has no subscription row, an
eligible skip fails with the integrity error yet the delivery stays
skipped and no notification appears. -/
theorem requestMessCut_join_failure_keeps_skip_witness :
    (requestMessCut dbNoSub 0 true true "sub-1" 0 "lunch" none).1 =
        Except.error MessCutError.integrityError ∧
      ((requestMessCut dbNoSub 0 true true "sub-1" 0 "lunch" none).2).deliveries.filter
          (matchesKey "sub-1" 0 "lunch") = [applySkip 0 none d1] ∧
      ((requestMessCut dbNoSub 0 true true "sub-1" 0 "lunch" none).2).notifications =
        dbNoSub.notifications :=
  requestMessCut_join_failure_keeps_skip dbNoSub 0 true true "sub-1" 0 "lunch" none d1
    (by decide) (by decide) (by decide)

/-- C2: a successful `requestMessCut` (eligible, exactly one matching
delivery row, intact join, no injected insert failure) returns the updated
row, whose status is skipped, whose skip reason is the given one (absent
when none was given) and whose skip-requested timestamp is the current
instant; the matching row in the store is that updated row; and exactly
one notification row is appended, addressed to the owning user of the
mess, titled Mess Cut Request, typed mess_cut, with a payload carrying the
delivery id, date and meal slot. -/
theorem requestMessCut_success_effects
    (db : DB) (now : Int) (pushOk : Bool) (sid : String) (date : Int)
    (mt : String) (r : Option String) (d0 : Delivery) (sub : Subscription)
    (mess : Mess)
    (helig : canRequestMessCut date mt now = true)
    (hrow : db.deliveries.filter (matchesKey sid date mt) = [d0])
    (hsub : db.subscriptions.find? (fun s => s.id == d0.subscription_id) = some sub)
    (hmess : db.messes.find? (fun m => m.id == sub.mess_id) = some mess) :
    (requestMessCut db now true pushOk sid date mt r).1 =
        Except.ok (applySkip now r d0) ∧
      (applySkip now r d0).status = "skipped" ∧
      (applySkip now r d0).skip_reason = r ∧
      (applySkip now r d0).skip_requested_at = some now ∧
      ((requestMessCut db now true pushOk sid date mt r).2).deliveries.filter
          (matchesKey sid date mt) = [applySkip now r d0] ∧
      ((requestMessCut db now true pushOk sid date mt r).2).notifications =
        db.notifications ++
          [{ user_id := mess.owner_id, title := "Mess Cut Request",
             message := "A customer has requested to skip " ++ mt ++ " on " ++
               toString date ++ " for " ++ mess.name,
             type := "mess_cut",
             data := some { type := "mess_cut", deliveryId := d0.id,
                            date := date, mealType := mt, reason := r },
             is_read := false }] := by
  have hge := not_lt_of_canRequestMessCut date mt now helig
  have hsub' : db.subscriptions.find?
      (fun s => s.id == (applySkip now r d0).subscription_id) = some sub := by
    simpa [applySkip] using hsub
  unfold requestMessCut
  rw [if_neg hge]
  simp only [hrow, hsub', hmess]
  refine ⟨by trivial, by trivial, by trivial, by trivial, ?_, ?_⟩
  · simp only [sendNotification_deliveries]
    rw [filter_map_update (matchesKey sid date mt) (applySkip now r)
        (matchesKey_applySkip sid date mt now r) db.deliveries, hrow]
    rfl
  · simp [sendNotification, applySkip]

/-- Witness for C2: the fixture lunch skipped thirteen hours ahead with a
reason, yielding the skipped row and one mess_cut notification to the
fixture owner. -/
theorem requestMessCut_success_effects_witness :
    (requestMessCut db0 0 true true "sub-1" 0 "lunch" (some "travel")).1 =
        Except.ok (applySkip 0 (some "travel") d1) ∧
      (applySkip 0 (some "travel") d1).status = "skipped" ∧
      (applySkip 0 (some "travel") d1).skip_reason = some "travel" ∧
      (applySkip 0 (some "travel") d1).skip_requested_at = some 0 ∧
      ((requestMessCut db0 0 true true "sub-1" 0 "lunch" (some "travel")).2).deliveries.filter
          (matchesKey "sub-1" 0 "lunch") = [applySkip 0 (some "travel") d1] ∧
      ((requestMessCut db0 0 true true "sub-1" 0 "lunch" (some "travel")).2).notifications =
        db0.notifications ++
          [{ user_id := mess1.owner_id, title := "Mess Cut Request",
             message := "A customer has requested to skip " ++ "lunch" ++ " on " ++
               toString (0 : Int) ++ " for " ++ mess1.name,
             type := "mess_cut",
             data := some { type := "mess_cut", deliveryId := d1.id,
                            date := 0, mealType := "lunch", reason := some "travel" },
             is_read := false }] :=
  requestMessCut_success_effects db0 0 true "sub-1" 0 "lunch" (some "travel") d1 sub1 mess1
    (by decide) (by decide) (by decide) (by decide)

/-- C9: the notification emitter never touches the deliveries table, and
neither the returned result of `requestMessCut` nor the deliveries table
of the store it returns depends on whether the notification insert or the
push dispatch fails: emission failure is absorbed inside the emitter. -/
theorem sendNotification_failure_isolated :
    (∀ (db : DB) (insertOk pushOk : Bool) (u t m : String)
        (dta : Option MessCutPayload),
      (sendNotification db insertOk pushOk u t m dta).deliveries = db.deliveries) ∧
    (∀ (db : DB) (now : Int) (i1 p1 i2 p2 : Bool) (sid : String)
        (date : Int) (mt : String) (r : Option String),
      (requestMessCut db now i1 p1 sid date mt r).1 =
          (requestMessCut db now i2 p2 sid date mt r).1 ∧
        ((requestMessCut db now i1 p1 sid date mt r).2).deliveries =
          ((requestMessCut db now i2 p2 sid date mt r).2).deliveries) := by
  constructor
  · exact sendNotification_deliveries
  · intro db now i1 p1 i2 p2 sid date mt r
    unfold requestMessCut
    by_cases h : deliveryDateTime date mt - now < twelveHoursMs
    · simp [h]
    · simp only [if_neg h]
      rcases hfil : db.deliveries.filter (matchesKey sid date mt) with _ | ⟨d0, rest⟩
      · simp
      · rcases rest with _ | ⟨d2, rest2⟩
        · rcases hs : db.subscriptions.find?
              (fun s => s.id == (applySkip now r d0).subscription_id) with _ | sub
          · simp [hs]
          · rcases hm : db.messes.find? (fun m => m.id == sub.mess_id) with _ | mess
            · simp [hs, hm]
            · simp [hs, hm, sendNotification_deliveries]
        · simp

/-- C5 counterexample: acknowledging a delivery id that matches no row
does not fail with the not-found error; the bare update succeeds and
returns the store unchanged. -/
theorem acknowledgeMessCut_missing_id_succeeds :
    acknowledgeMessCut db0 "no-such-delivery" = Except.ok db0 ∧
      acknowledgeMessCut db0 "no-such-delivery" ≠
        Except.error MessCutError.deliveryNotFound := by
  have h1 : acknowledgeMessCut db0 "no-such-delivery" = Except.ok db0 := rfl
  refine ⟨h1, ?_⟩
  rw [h1]
  exact fun hc => Except.noConfusion hc

/-- C5 amended: `acknowledgeMessCut` always succeeds: it writes the note
Acknowledged by mess owner on every delivery row whose id matches, leaves
notifications alone, and when no row matches the id it returns the store
unchanged instead of failing with the not-found error. -/
theorem acknowledgeMessCut_spec (db : DB) (deliveryId : String) :
    ∃ db2, acknowledgeMessCut db deliveryId = Except.ok db2 ∧
      db2.notifications = db.notifications ∧
      db2.deliveries = db.deliveries.map
        (fun d => if d.id == deliveryId then
          { d with delivery_notes := some "Acknowledged by mess owner" } else d) ∧
      (db.deliveries.filter (fun d => d.id == deliveryId) = [] → db2 = db) := by
  refine ⟨_, rfl, rfl, rfl, fun h => ?_⟩
  have hmap := map_update_of_filter_nil (fun d => d.id == deliveryId)
      (fun d => { d with delivery_notes := some "Acknowledged by mess owner" })
      db.deliveries h
  show { db with deliveries := _ } = db
  rw [hmap]

/-- Witness for C5: acknowledging a missing id on the fixture store
succeeds with the store unchanged. -/
theorem acknowledgeMessCut_spec_witness :
    ∃ db2, acknowledgeMessCut db0 "ghost" = Except.ok db2 ∧
      db2.notifications = db0.notifications ∧
      db2.deliveries = db0.deliveries.map
        (fun d => if d.id == "ghost" then
          { d with delivery_notes := some "Acknowledged by mess owner" } else d) ∧
      (db0.deliveries.filter (fun d => d.id == "ghost") = [] → db2 = db0) :=
  acknowledgeMessCut_spec db0 "ghost"

end Messy
